import Mathlib

/-!
Verification of the RES4LYF dynamic-widget visibility system
(`web/js/RES4LYF_dynamicWidgets.js`).

The JavaScript source is shallowly embedded below.  Widgets, node inputs and
nodes are records mirroring the fields the script reads and writes; the
process-wide mutable state (`ENABLE_WIDGET_HIDING`, `origProps`) is an explicit
`GlobalState` record threaded through the operations.  A widget's
size-contribution function (`computeSize`) is represented symbolically: it is
either an opaque host-supplied closure, identified by a numeric id, or the
zero-footprint closure installed by `toggleWidget`; an environment interprets
the host ids when a size must actually be produced.  The host's
`node.computeSize()` collaborator is an arbitrary function of the node's
widget list, passed as the parameter `hcs`.
-/

set_option maxHeartbeats 1000000

namespace RES4LYF

/-- The sentinel render-kind assigned to hidden widgets (`HIDDEN_TAG`, source
line 16). -/
def HIDDEN_TAG : String := "RES4LYF_hidden"

/-- A widget size-contribution function, represented symbolically: either an
opaque closure supplied by the host (identified by an id) or the
zero-footprint closure `() => [0, -4]` installed by `toggleWidget`. -/
inductive SizeFn where
  | host (id : Nat)
  | zeroFootprint
deriving DecidableEq

/-- Evaluate a size function, interpreting host-supplied closures through an
environment.  The zero-footprint closure returns width 0 and height -4, as in
the source (line 192). -/
def SizeFn.eval (env : Nat → Int × Int) : SizeFn → Int × Int
  | .host i => env i
  | .zeroFootprint => (0, -4)

/-- The entry stored in `origProps` for a widget name: the original render-kind
and size function captured on first toggle (source lines 179-184). -/
structure OrigProp where
  origType : String
  origComputeSize : SizeFn
deriving DecidableEq

/-- A widget, with exactly the fields the script reads or writes.
`RES4LYF_hidden` models the `_RES4LYF_hidden` expando property (absent until
the first toggle). -/
structure Widget where
  name : String
  value : String
  type : String
  computeSize : SizeFn
  computedHeight : Option Int
  RES4LYF_hidden : Option Bool
deriving DecidableEq

/-- A node input socket: a name and a nullable link. -/
structure NodeInput where
  name : String
  link : Option Nat
deriving DecidableEq

/-- A node instance: type name, id, widgets, inputs and current size. -/
structure Node where
  comfyClass : String
  id : Nat
  widgets : List Widget
  inputs : List NodeInput
  size : Int × Int
deriving DecidableEq

/-- The module-level mutable state of the script: the
`ENABLE_WIDGET_HIDING` switch (line 3) and the `origProps` store (line 17),
the latter modelled as an association list keyed by widget name. -/
structure GlobalState where
  enableWidgetHiding : Bool
  origProps : List (String × OrigProp)
deriving DecidableEq

/-- Read `origProps[name]`. -/
def lookupOrig (props : List (String × OrigProp)) (name : String) : Option OrigProp :=
  (props.find? fun e => e.1 == name).map Prod.snd

/-- `node.widgets.find(w => w.name === name)`. -/
def findWidget (node : Node) (name : String) : Option Widget :=
  node.widgets.find? fun w => w.name == name

/-- `node.inputs.find(input => input.name === name)`. -/
def findInput (node : Node) (name : String) : Option NodeInput :=
  node.inputs.find? fun inp => inp.name == name

/-- In-place mutation of the widget object found by name: replace the first
widget with the given name.  (The script always passes a widget obtained from
`node.widgets.find`, so mutating that object is mutating the first
name-match.) -/
def updateFirstWidget : List Widget → String → Widget → List Widget
  | [], _, _ => []
  | w :: ws, name, w2 => if w.name == name then w2 :: ws else w :: updateFirstWidget ws name w2

/-- Source lines 179-184: `if (!origProps[widget.name]) origProps[widget.name]
= { origType: widget.type, origComputeSize: widget.computeSize }`. -/
def insertOrig (props : List (String × OrigProp)) (w : Widget) : List (String × OrigProp) :=
  if (lookupOrig props w.name).isSome then props
  else (w.name, ⟨w.type, w.computeSize⟩) :: props

/-- The value of `origProps[widget.name]` read on lines 189-191, i.e. after the
conditional capture.  The `getD` default is never reached once `insertOrig`
has run (see `lookupOrig_insertOrig_self`). -/
def capturedProps (props : List (String × OrigProp)) (w : Widget) : OrigProp :=
  (lookupOrig props w.name).getD ⟨w.type, w.computeSize⟩

/-- `shouldShow || !ENABLE_WIDGET_HIDING`: the condition of lines 189, 190,
194 and 200 deciding whether the widget ends up visually shown. -/
def visibleNow (st : GlobalState) (shouldShow : Bool) : Bool :=
  shouldShow || !st.enableWidgetHiding

/-- The widget mutation performed by lines 188-197 of `toggleWidget`. -/
def toggledWidget (st : GlobalState) (props : OrigProp) (w : Widget)
    (shouldShow : Bool) : Widget :=
  { w with
    RES4LYF_hidden := some (!shouldShow)
    type := if visibleNow st shouldShow then props.origType else HIDDEN_TAG
    computeSize := if visibleNow st shouldShow then props.origComputeSize
      else SizeFn.zeroFootprint
    computedHeight := if visibleNow st shouldShow then none else some 0 }

/-- Lines 199-203 of `toggleWidget`: recompute the node's natural size from the
mutated widget list (`hcs` is the host's `node.computeSize()`), guard growth
with `Math.max` against the pre-call size when showing, and apply the height
while keeping the current width. -/
def resizeNode (hcs : List Widget → Int × Int) (st : GlobalState) (node : Node)
    (widgets2 : List Widget) (shouldShow : Bool) : Node :=
  { node with
    widgets := widgets2
    size := (node.size.1,
      if visibleNow st shouldShow then max (hcs widgets2).2 node.size.2
      else (hcs widgets2).2) }

/-- `toggleWidget(node, widget, shouldShow)`, source lines 174-204.  The
`none` case is the `if (!widget) return;` guard. -/
def toggleWidget (hcs : List Widget → Int × Int) (st : GlobalState) (node : Node)
    (wopt : Option Widget) (shouldShow : Bool) : GlobalState × Node :=
  match wopt with
  | none => (st, node)
  | some widget =>
    (⟨st.enableWidgetHiding, insertOrig st.origProps widget⟩,
     resizeNode hcs st node
       (updateFirstWidget node.widgets widget.name
         (toggledWidget st (capturedProps (insertOrig st.origProps widget) widget)
           widget shouldShow))
       shouldShow)

/-- One step of a `widgetsToShow.forEach` / `group.widgets.forEach` loop:
look the target widget up by name on the current node and toggle it.  The
`toggleWidget` `none` case is exactly the script's behaviour for a missing
widget (an `undefined` argument on line 227, the `if (widget)` guard on
lines 290-292). -/
def toggleByName (hcs : List Widget → Int × Int) (shouldShow : Bool)
    (p : GlobalState × Node) (wname : String) : GlobalState × Node :=
  toggleWidget hcs p.1 p.2 (findWidget p.2 wname) shouldShow

/-- A value-dependency group of `commonDependentWidgets` (source lines
31-61). -/
structure DepGroup where
  inputWidgetNames : List String
  independentValues : List String
  widgetsToShow : List String
deriving DecidableEq

/-- A `dependentWidgets` configuration: a list of value-dependency groups. -/
structure DepConfig where
  groups : List DepGroup
deriving DecidableEq

/-- Lines 220-223: `showWidgets = inputWidgetNames.some(widgetName => { const
widget = node.widgets.find(...); return widget &&
independentValues.includes(widget.value); })`.  A name that matches no widget
contributes `false`. -/
def evalShowWidgets (node : Node) (group : DepGroup) : Bool :=
  group.inputWidgetNames.any fun widgetName =>
    match findWidget node widgetName with
    | some w => group.independentValues.contains w.value
    | none => false

/-- Lines 217-229: process one value-dependency group — evaluate
`showWidgets` once, then toggle every widget in `widgetsToShow` to it. -/
def applyDepGroup (hcs : List Widget → Int × Int) (p : GlobalState × Node)
    (group : DepGroup) : GlobalState × Node :=
  group.widgetsToShow.foldl (toggleByName hcs (evalShowWidgets p.2 group)) p

/-- The handler returned by `createGenericHandler(node, dependentWidgetsConfig)`
(source lines 212-232), run once.  The `none` case is the
`dependentWidgetsConfig?.groups` optional-chaining guard. -/
def runGenericHandler (hcs : List Widget → Int × Int) (st : GlobalState)
    (node : Node) (config : Option DepConfig) : GlobalState × Node :=
  match config with
  | none => (st, node)
  | some cfg => cfg.groups.foldl (applyDepGroup hcs) (st, node)

/-- A connection-dependency group of an `optionalInputWidgets` configuration
(source lines 96-105). -/
structure OptGroup where
  inputs : List String
  widgets : List String
deriving DecidableEq

/-- An `optionalInputWidgets` configuration. -/
structure OptConfig where
  groups : List OptGroup
deriving DecidableEq

/-- Lines 282-285: `isAnyConnected = group.inputs.some(inputName => { const
input = node.inputs.find(...); return input && input.link !== null; })`. -/
def anyGroupInputConnected (node : Node) (group : OptGroup) : Bool :=
  group.inputs.any fun inputName =>
    match findInput node inputName with
    | some inp => inp.link.isSome
    | none => false

/-- Lines 279-295: process one connection-dependency group of
`handleConnectionChange`: groups not naming the changed input are skipped;
otherwise the connected-check ranges over ALL inputs of the group and every
widget of the group is toggled to its result. -/
def applyOptGroup (hcs : List Widget → Int × Int) (inputName : String)
    (p : GlobalState × Node) (group : OptGroup) : GlobalState × Node :=
  if group.inputs.contains inputName then
    group.widgets.foldl (toggleByName hcs (anyGroupInputConnected p.2 group)) p
  else p

/-- `handleConnectionChange(type, index, connected, link_info)`, source lines
270-296.  `config` stands for `nodeConfigs[node.comfyClass]?.optionalInputWidgets`;
the empty-name case is the falsy `if (!inputName) return;` guard. -/
def handleConnectionChange (hcs : List Widget → Int × Int) (st : GlobalState)
    (node : Node) (config : Option OptConfig) (index : Nat) : GlobalState × Node :=
  match config with
  | none => (st, node)
  | some cfg =>
    match node.inputs.get? index with
    | none => (st, node)
    | some inp =>
      if inp.name = "" then (st, node)
      else cfg.groups.foldl (applyOptGroup hcs inp.name) (st, node)

/-- The first group of `commonDependentWidgets` (source lines 31-35). -/
def noiseGroup : DepGroup :=
  ⟨["noise_type", "noise_sampler_type"], ["fractal"], ["alpha", "k"]⟩

/-- `commonDependentWidgets` (source lines 29-63). -/
def commonDependentWidgets : DepConfig :=
  ⟨[noiseGroup,
    ⟨["rk_type", "sampler_name"],
     ["dormand-prince_6s", "dormand-prince_7s", "dormand-prince_13s",
      "bogacki-shampine_7s", "rk_exp_5s", "rk4_4s", "rk38_4s", "ralston_4s",
      "dpmpp_3s", "heun_3s", "houwen-wray_3s", "kutta_3s", "ralston_3s",
      "res_3s", "ssprk3_3s", "dpmpp_2s", "dpmpp_sde_2s", "heun_2s",
      "ralston_2s", "res_2s"],
     ["multistep"]⟩]⟩

/-- `nodesWithCommonConfig` (source lines 66-90). -/
def nodesWithCommonConfig : List String :=
  ["AdvancedNoise", "Legacy_ClownSampler", "ClownSampler", "ClownsharKSampler",
   "KSamplerSelectAdvanced", "LatentNoised", "SamplerCorona", "SamplerDEIS_SDE",
   "SamplerDPMPP_2M_SDE_Advanced", "SamplerDPMPP_2S_Ancestral_Advanced",
   "SamplerDPMPP_3M_SDE_Advanced", "SamplerDPMPP_DualSDE_Advanced",
   "SamplerDPMPP_SDE_Advanced", "SamplerDPMPP_SDE_CFG++_Advanced",
   "SamplerEulerAncestral_Advanced", "SamplerNoiseInversion",
   "SamplerRES_Implicit", "SamplerRES3_Implicit_Automation", "SamplerRK",
   "SamplerRK_Test", "SharkSampler", "UltraSharkSampler",
   "UltraSharkSampler Tiled"]

/-- A node-type configuration: optional value rules and connection rules. -/
structure NodeConfig where
  dependentWidgets : Option DepConfig
  optionalInputWidgets : Option OptConfig
deriving DecidableEq

/-- `createNodeConfig(nodeName, uniqueConfig)` (source lines 151-159). -/
def createNodeConfig (nodeName : String) (uniqueOptional : Option OptConfig) :
    NodeConfig :=
  ⟨if nodesWithCommonConfig.contains nodeName then some commonDependentWidgets
    else none,
   uniqueOptional⟩

/-- The guide group shared by the `optionalInputWidgets` configurations
(source lines 97-100, 113-116 and 128-131). -/
def guideOptGroup : OptGroup :=
  ⟨["latent_guide", "latent_guide_inv"], ["latent_guide_weight", "guide_mode"]⟩

/-- The `optionalInputWidgets` groups of `ClownSampler` and
`Legacy_ClownSampler` (source lines 93-123). -/
def clownOptConfig : OptConfig :=
  ⟨[guideOptGroup, ⟨["latent_guide_mask"], ["rescale_floor"]⟩]⟩

/-- The `optionalInputWidgets` groups of `SamplerRK` (source lines 125-134). -/
def samplerRKOptConfig : OptConfig :=
  ⟨[guideOptGroup]⟩

/-- The `nodeConfigs` table (lines 18, 93-134, 162-166) as a lookup
function. -/
def nodeConfigs (name : String) : Option NodeConfig :=
  if name = "ClownSampler" then some (createNodeConfig name (some clownOptConfig))
  else if name = "Legacy_ClownSampler" then
    some (createNodeConfig name (some clownOptConfig))
  else if name = "SamplerRK" then some (createNodeConfig name (some samplerRKOptConfig))
  else if nodesWithCommonConfig.contains name then some (createNodeConfig name none)
  else none

/-- The names declared in `TOGGLEABLE_WIDGETS` (source lines 137-148). -/
def TOGGLEABLE_WIDGET_NAMES : List String := ["extra_options", "truncate_conditioning"]

/-- The key used in `widgetToggleStates`: `` `${node.id}_${widgetName}` ``
(line 246 and elsewhere). -/
def stateKey (node : Node) (widgetName : String) : String :=
  toString node.id ++ "_" ++ widgetName

/-- `widgetToggleStates.has(stateKey)` on an association-list model of the
override store. -/
def hasToggleState (ts : List (String × Bool)) (key : String) : Bool :=
  (ts.find? fun e => e.1 == key).isSome

/-- The body of the per-node loop of the `TOGGLEABLE_WIDGETS` settings
`onChange` handler (source lines 382-393): skip unmanaged nodes, skip nodes
without the widget, skip instances with a user override, otherwise apply the
new global default through `toggleWidget`. -/
def applyDefaultWidgetState (hcs : List Widget → Int × Int)
    (ts : List (String × Bool)) (widgetName : String) (value : Bool)
    (st : GlobalState) (node : Node) : GlobalState × Node :=
  if (nodeConfigs node.comfyClass).isSome then
    match findWidget node widgetName with
    | some w =>
      if hasToggleState ts (stateKey node widgetName) then (st, node)
      else toggleWidget hcs st node (some w) (!value)
    | none => (st, node)
  else (st, node)

/-- The whole node loop of the settings `onChange` handler (source lines
381-393), over the graph's node list. -/
def defaultStateOnChange (hcs : List Widget → Int × Int)
    (ts : List (String × Bool)) (widgetName : String) (value : Bool) :
    GlobalState → List Node → GlobalState × List Node
  | st, [] => (st, [])
  | st, n :: ns =>
    let p := applyDefaultWidgetState hcs ts widgetName value st n
    let q := defaultStateOnChange hcs ts widgetName value p.1 ns
    (q.1, p.2 :: q.2)

/-- The body of the `node.widgets.forEach` loop of the
`RES4LYF.enableDynamicWidgets` settings `onChange` handler (source lines
421-425): widgets carrying a `_RES4LYF_hidden` flag are re-toggled to the
negation of the flag. -/
def reapplyStep (hcs : List Widget → Int × Int) (p : GlobalState × Node)
    (wname : String) : GlobalState × Node :=
  match findWidget p.2 wname with
  | some w =>
    match w.RES4LYF_hidden with
    | some b => toggleWidget hcs p.1 p.2 (some w) (!b)
    | none => p
  | none => p

/-- Re-apply every recorded visibility flag on one node (lines 421-425). -/
def reapplyHiddenFlags (hcs : List Widget → Int × Int) (st : GlobalState)
    (node : Node) : GlobalState × Node :=
  (node.widgets.map Widget.name).foldl (reapplyStep hcs) (st, node)

/-- The per-node effect of the `RES4LYF.enableDynamicWidgets` `onChange`
handler (source lines 410-427): set `ENABLE_WIDGET_HIDING` to `value`, skip
unmanaged nodes, and re-apply the recorded flags on managed ones. -/
def enableHidingOnChange (hcs : List Widget → Int × Int) (value : Bool)
    (st : GlobalState) (node : Node) : GlobalState × Node :=
  if (nodeConfigs node.comfyClass).isSome then
    reapplyHiddenFlags hcs ⟨value, st.origProps⟩ node
  else (⟨value, st.origProps⟩, node)

/-- An arbitrary sequence of `toggleWidget` calls (each with its own node and
widget argument), used to state properties of the process-wide `origProps`
store across a whole session. -/
def runToggleCalls (hcs : List Widget → Int × Int)
    (calls : List (Node × Option Widget × Bool)) (st : GlobalState) : GlobalState :=
  calls.foldl (fun s c => (toggleWidget hcs s c.1 c.2.1 c.2.2).1) st

/-! ### Lifecycle-hook wrapping

The script reassigns node hook slots at setup time.  A hook slot is modelled
symbolically as the history of assignments made to it, and `run` gives the
list of atomic actions one invocation of the hook performs, in order. -/

/-- Atomic actions observable when a node hook fires. -/
inductive HookAction where
  | externalAction (id : Nat)
  | connectionUpdate
  | nodeChange
  | pushRefreshOption
  | pushToggleOptions
deriving DecidableEq

/-- The `onConnectionsChange` hook slot. -/
inductive ConnHook where
  | unset
  | external (id : Nat)
  | wrapped (prev : ConnHook)
deriving DecidableEq

/-- Actions performed by one `onConnectionsChange` invocation.  The wrapper of
source lines 300-306 first applies the previously installed handler, then runs
`handleConnectionChange` and `onNodeChange`. -/
def ConnHook.run : ConnHook → List HookAction
  | .unset => []
  | .external i => [.externalAction i]
  | .wrapped prev => prev.run ++ [.connectionUpdate, .nodeChange]

/-- The reassignment of `node.onConnectionsChange` performed by each
`setupDynamicWidgets` call (source lines 299-306). -/
def wrapOnConnectionsChange (h : ConnHook) : ConnHook := ConnHook.wrapped h

/-- The `getExtraMenuOptions` hook slot. -/
inductive MenuHook where
  | unset
  | external (id : Nat)
  | wrapped (prev : MenuHook)
deriving DecidableEq

/-- Actions performed by one `getExtraMenuOptions` invocation.  The wrapper of
source lines 311-339 first applies the previously installed handler, then
pushes the refresh entry and the per-widget toggle entries. -/
def MenuHook.run : MenuHook → List HookAction
  | .unset => []
  | .external i => [.externalAction i]
  | .wrapped prev => prev.run ++ [.pushRefreshOption, .pushToggleOptions]

/-- The menu hook slot together with the node's `_RES4LYF_menuWrapped` guard
flag. -/
structure MenuHookState where
  menuWrapped : Bool
  hook : MenuHook
deriving DecidableEq

/-- The guarded reassignment of `node.getExtraMenuOptions` performed by
`setupDynamicWidgets` (source lines 309-341). -/
def wrapGetExtraMenuOptions (s : MenuHookState) : MenuHookState :=
  if s.menuWrapped then s else ⟨true, MenuHook.wrapped s.hook⟩

/-- The `onAfterGraphConfigured` hook slot. -/
inductive AfterGraphHook where
  | unset
  | external (id : Nat)
  | res4lyfHandler
deriving DecidableEq

/-- Actions performed by one `onAfterGraphConfigured` invocation; the script's
handler (lines 503-510) only schedules a generic-handler run. -/
def AfterGraphHook.run : AfterGraphHook → List HookAction
  | .unset => []
  | .external i => [.externalAction i]
  | .res4lyfHandler => [.nodeChange]

/-- The plain assignment `node.onAfterGraphConfigured = function () {...}`
performed in `nodeCreated` (source lines 503-510): the previous value is
discarded. -/
def setOnAfterGraphConfigured (_h : AfterGraphHook) : AfterGraphHook :=
  AfterGraphHook.res4lyfHandler

/-! ### Concrete sample data

A small concrete `ClownSampler` node instance used to evaluate the theorems
below on explicit inputs. -/

def noiseTypeWidget : Widget := ⟨"noise_type", "fractal", "combo", SizeFn.host 0, none, none⟩

def alphaWidget : Widget := ⟨"alpha", "1.0", "number", SizeFn.host 1, none, none⟩

def kWidget : Widget := ⟨"k", "1.0", "number", SizeFn.host 2, none, none⟩

def extraOptionsWidget : Widget := ⟨"extra_options", "", "text", SizeFn.host 3, none, none⟩

def guideWeightWidget : Widget :=
  ⟨"latent_guide_weight", "0.5", "number", SizeFn.host 4, none, some false⟩

def guideModeWidget : Widget := ⟨"guide_mode", "blend", "combo", SizeFn.host 5, none, none⟩

def sampleNode : Node :=
  ⟨"ClownSampler", 5,
   [noiseTypeWidget, alphaWidget, kWidget, extraOptionsWidget, guideWeightWidget,
    guideModeWidget],
   [⟨"latent_guide", none⟩, ⟨"latent_guide_inv", some 3⟩, ⟨"latent_guide_mask", none⟩],
   (140, 200)⟩

/-- A concrete host `computeSize` collaborator: 20 pixels of height per
widget. -/
def sampleHcs : List Widget → Int × Int := fun ws => (140, 20 * (ws.length : Int))

def sampleState : GlobalState := ⟨true, []⟩

/-- A state whose `origProps` store already holds entries for `alpha` and
`latent_guide_weight`. -/
def sampleStateWithProps : GlobalState :=
  ⟨false, [("alpha", ⟨"number", SizeFn.host 1⟩),
           ("latent_guide_weight", ⟨"number", SizeFn.host 4⟩)]⟩

/-! ### Helper lemmas -/

theorem lookupOrig_cons (e : String × OrigProp) (props : List (String × OrigProp))
    (n : String) :
    lookupOrig (e :: props) n = if e.1 == n then some e.2 else lookupOrig props n := by
  unfold lookupOrig
  cases h : (e.1 == n) <;> simp [List.find?_cons, h]

theorem lookupOrig_insertOrig_self (props : List (String × OrigProp)) (w : Widget) :
    lookupOrig (insertOrig props w) w.name = some (capturedProps props w) := by
  unfold insertOrig capturedProps
  cases h : lookupOrig props w.name with
  | some p => simp [h]
  | none => simp [h, lookupOrig_cons]

theorem lookupOrig_insertOrig_preserved {props : List (String × OrigProp)}
    {n : String} {p : OrigProp} (w : Widget) (h : lookupOrig props n = some p) :
    lookupOrig (insertOrig props w) n = some p := by
  unfold insertOrig
  cases hs : lookupOrig props w.name with
  | some q => simpa [hs] using h
  | none =>
    have hw : w.name ≠ n := by
      intro he
      rw [he, h] at hs
      cases hs
    simp [hs, lookupOrig_cons, hw, h]

theorem capturedProps_insertOrig (props : List (String × OrigProp)) (w : Widget) :
    capturedProps (insertOrig props w) w = capturedProps props w := by
  show (lookupOrig (insertOrig props w) w.name).getD ⟨w.type, w.computeSize⟩ = _
  rw [lookupOrig_insertOrig_self]
  rfl

theorem toggleWidget_some (hcs : List Widget → Int × Int) (st : GlobalState)
    (node : Node) (widget : Widget) (shouldShow : Bool) :
    toggleWidget hcs st node (some widget) shouldShow =
      (⟨st.enableWidgetHiding, insertOrig st.origProps widget⟩,
       resizeNode hcs st node
         (updateFirstWidget node.widgets widget.name
           (toggledWidget st (capturedProps st.origProps widget) widget shouldShow))
         shouldShow) := by
  simp only [toggleWidget, capturedProps_insertOrig]

theorem toggleWidget_fst_enable (hcs : List Widget → Int × Int) (st : GlobalState)
    (node : Node) (wopt : Option Widget) (s : Bool) :
    (toggleWidget hcs st node wopt s).1.enableWidgetHiding = st.enableWidgetHiding := by
  cases wopt <;> rfl

theorem toggleWidget_snd_inputs (hcs : List Widget → Int × Int) (st : GlobalState)
    (node : Node) (wopt : Option Widget) (s : Bool) :
    (toggleWidget hcs st node wopt s).2.inputs = node.inputs := by
  cases wopt <;> rfl

theorem findWidget_name {node : Node} {t : String} {w : Widget}
    (h : findWidget node t = some w) : w.name = t := by
  have := List.find?_some h
  simpa using this

theorem updateFirstWidget_find_self (ws : List Widget) (t : String) (w2 : Widget)
    (h2 : w2.name = t) :
    (updateFirstWidget ws t w2).find? (fun w => w.name == t) =
      (ws.find? (fun w => w.name == t)).map fun _ => w2 := by
  induction ws with
  | nil => simp [updateFirstWidget]
  | cons a as ih =>
    by_cases h : a.name = t
    · simp [updateFirstWidget, h, h2]
    · simp [updateFirstWidget, h, ih]

theorem updateFirstWidget_find_other (ws : List Widget) (t m : String) (w2 : Widget)
    (h2 : w2.name = t) (hne : m ≠ t) :
    (updateFirstWidget ws t w2).find? (fun w => w.name == m) =
      ws.find? (fun w => w.name == m) := by
  induction ws with
  | nil => simp [updateFirstWidget]
  | cons a as ih =>
    by_cases h : a.name = t
    · have htm : (t == m) = false := by simp [Ne.symm hne]
      have hm1 : (w2.name == m) = false := by simp [h2, Ne.symm hne]
      simp [updateFirstWidget, h, h2, List.find?_cons, hm1, htm]
    · by_cases hm : a.name = m
      · simp [updateFirstWidget, h, List.find?_cons, hm, hne]
      · simp [updateFirstWidget, h, List.find?_cons, hm, hne, ih]

theorem updateFirstWidget_self (ws : List Widget) (t : String) (w : Widget)
    (h : ws.find? (fun x => x.name == t) = some w) :
    updateFirstWidget ws t w = ws := by
  induction ws with
  | nil => simp at h
  | cons a as ih =>
    by_cases ha : a.name = t
    · have hw : a = w := by
        have h3 : some a = some w := by simpa [List.find?_cons, ha] using h
        exact Option.some.inj h3
      subst hw
      simp [updateFirstWidget, ha]
    · have h2 : as.find? (fun x => x.name == t) = some w := by
        simpa [List.find?_cons, ha] using h
      simp [updateFirstWidget, ha, ih h2]

theorem findWidget_toggleWidget_self (hcs : List Widget → Int × Int)
    (st : GlobalState) (node : Node) (w : Widget) (s : Bool) :
    findWidget (toggleWidget hcs st node (some w) s).2 w.name =
      (findWidget node w.name).map fun _ =>
        toggledWidget st (capturedProps st.origProps w) w s := by
  rw [toggleWidget_some]
  show (updateFirstWidget node.widgets w.name _).find? _ = _
  exact updateFirstWidget_find_self _ _ _ rfl

theorem findWidget_toggleWidget_other (hcs : List Widget → Int × Int)
    (st : GlobalState) (node : Node) (w : Widget) (s : Bool) (m : String)
    (hm : m ≠ w.name) :
    findWidget (toggleWidget hcs st node (some w) s).2 m = findWidget node m := by
  rw [toggleWidget_some]
  show (updateFirstWidget node.widgets w.name _).find? _ = _
  exact updateFirstWidget_find_other _ _ _ _ rfl hm

theorem lookupOrig_toggleWidget {hcs : List Widget → Int × Int} {st : GlobalState}
    {node : Node} {wopt : Option Widget} {s : Bool} {n : String} {p : OrigProp}
    (h : lookupOrig st.origProps n = some p) :
    lookupOrig (toggleWidget hcs st node wopt s).1.origProps n = some p := by
  cases wopt with
  | none => exact h
  | some w => exact lookupOrig_insertOrig_preserved w h

theorem findWidget_toggleByName_isSome (hcs : List Widget → Int × Int) (s : Bool)
    (p : GlobalState × Node) (m t : String)
    (h : (findWidget p.2 t).isSome) :
    (findWidget (toggleByName hcs s p m).2 t).isSome := by
  unfold toggleByName
  cases hf : findWidget p.2 m with
  | none => exact h
  | some w =>
    by_cases ht : t = w.name
    · subst ht
      rw [findWidget_toggleWidget_self]
      simpa using h
    · rw [findWidget_toggleWidget_other _ _ _ _ _ _ ht]
      exact h

theorem toggleByName_enable (hcs : List Widget → Int × Int) (s : Bool)
    (p : GlobalState × Node) (m : String) :
    (toggleByName hcs s p m).1.enableWidgetHiding = p.1.enableWidgetHiding :=
  toggleWidget_fst_enable _ _ _ _ _

theorem foldToggle_find_not_mem (hcs : List Widget → Int × Int) (s : Bool)
    (L : List String) (p : GlobalState × Node) (t : String) (h : t ∉ L) :
    findWidget (L.foldl (toggleByName hcs s) p).2 t = findWidget p.2 t := by
  induction L generalizing p with
  | nil => rfl
  | cons m L ih =>
    rw [List.foldl_cons, ih _ (fun hmem => h (List.mem_cons_of_mem m hmem))]
    have hm : t ≠ m := fun he => h (he ▸ List.mem_cons_self m L)
    unfold toggleByName
    cases hf : findWidget p.2 m with
    | none => rfl
    | some w =>
      exact findWidget_toggleWidget_other _ _ _ _ _ _
        (by rw [findWidget_name hf]; exact hm)

theorem foldToggle_find_mem (hcs : List Widget → Int × Int) (s : Bool)
    (L : List String) (p : GlobalState × Node) (t : String)
    (ht : t ∈ L) (hw : (findWidget p.2 t).isSome) :
    ∃ w2, findWidget (L.foldl (toggleByName hcs s) p).2 t = some w2 ∧
      w2.RES4LYF_hidden = some (!s) ∧
      w2.computedHeight =
        (if s || !p.1.enableWidgetHiding then none else some 0) := by
  induction L generalizing p with
  | nil => cases ht
  | cons m L ih =>
    rw [List.foldl_cons]
    by_cases hmem : t ∈ L
    · obtain ⟨w2, e1, e2, e3⟩ := ih (toggleByName hcs s p m) hmem
        (findWidget_toggleByName_isSome hcs s p m t hw)
      refine ⟨w2, e1, e2, ?_⟩
      rw [e3, toggleByName_enable]
    · have htm : t = m := by
        rcases List.mem_cons.mp ht with h1 | h1
        · exact h1
        · exact absurd h1 hmem
      subst htm
      rw [foldToggle_find_not_mem hcs s L _ t hmem]
      obtain ⟨w, hw2⟩ := Option.isSome_iff_exists.mp hw
      have hname := findWidget_name hw2
      unfold toggleByName
      rw [hw2, ← hname, findWidget_toggleWidget_self, hname, hw2]
      exact ⟨_, rfl, rfl, rfl⟩

theorem findWidget_toggleWidget_self_name (hcs : List Widget → Int × Int)
    (st : GlobalState) (node : Node) (w : Widget) (s : Bool) (t : String)
    (hname : w.name = t) :
    findWidget (toggleWidget hcs st node (some w) s).2 t =
      (findWidget node t).map fun _ =>
        toggledWidget st (capturedProps st.origProps w) w s := by
  subst hname
  exact findWidget_toggleWidget_self hcs st node w s

theorem capturedProps_after_toggle (hcs : List Widget → Int × Int)
    (st : GlobalState) (node : Node) (w : Widget) (s : Bool) (w2 : Widget)
    (hname : w2.name = w.name) :
    capturedProps (toggleWidget hcs st node (some w) s).1.origProps w2 =
      capturedProps st.origProps w := by
  show (lookupOrig (insertOrig st.origProps w) w2.name).getD _ = _
  rw [hname, lookupOrig_insertOrig_self]
  rfl

/-! ### Claim theorems -/

/-- C1: for a managed node and a value-based rule, the generic handler sets
every target widget present on the node to shown exactly when some controlling
widget exists on the node with its current value in the trigger list; a
controlling name matching no widget contributes false to the existence check
and raises no error. -/
theorem createGenericHandler_value_rule (hcs : List Widget → Int × Int)
    (st : GlobalState) (node : Node) (g : DepGroup) (t : String) (w : Widget)
    (ht : t ∈ g.widgetsToShow) (hw : findWidget node t = some w) :
    (∃ w2, findWidget (runGenericHandler hcs st node (some ⟨[g]⟩)).2 t = some w2 ∧
      w2.RES4LYF_hidden = some (!evalShowWidgets node g) ∧
      w2.computedHeight =
        (if evalShowWidgets node g || !st.enableWidgetHiding then none else some 0)) ∧
    (∀ m, findWidget node m = none →
      evalShowWidgets node ⟨m :: g.inputWidgetNames, g.independentValues, g.widgetsToShow⟩ =
        evalShowWidgets node g) := by
  constructor
  · have h0 : runGenericHandler hcs st node (some ⟨[g]⟩) =
        g.widgetsToShow.foldl (toggleByName hcs (evalShowWidgets node g)) (st, node) :=
      rfl
    rw [h0]
    exact foldToggle_find_mem hcs _ _ (st, node) t ht (by rw [show findWidget (st, node).2 t = some w from hw]; rfl)
  · intro m hm
    unfold evalShowWidgets
    simp [hm]

/-- C2: when an input named in a connection group changes state,
`handleConnectionChange` toggles every widget of the group present on the node
to shown exactly when at least one input named anywhere in the group currently
has a non-null link; the outcome is the same whichever of the group's inputs
was the one that changed. -/
theorem handleConnectionChange_connection_rule (hcs : List Widget → Int × Int)
    (st : GlobalState) (node : Node) (g : OptGroup) (idx : Nat) (inp : NodeInput)
    (t : String) (w : Widget)
    (hidx : node.inputs.get? idx = some inp)
    (hin : inp.name ∈ g.inputs) (hne : inp.name ≠ "")
    (ht : t ∈ g.widgets) (hw : findWidget node t = some w) :
    (∃ w2, findWidget (handleConnectionChange hcs st node (some ⟨[g]⟩) idx).2 t = some w2 ∧
      w2.RES4LYF_hidden = some (!anyGroupInputConnected node g) ∧
      w2.computedHeight =
        (if anyGroupInputConnected node g || !st.enableWidgetHiding then none
         else some 0)) ∧
    (∀ idx2 inp2, node.inputs.get? idx2 = some inp2 → inp2.name ∈ g.inputs →
      inp2.name ≠ "" →
      handleConnectionChange hcs st node (some ⟨[g]⟩) idx2 =
        handleConnectionChange hcs st node (some ⟨[g]⟩) idx) := by
  have hrun : ∀ idx3 inp3, node.inputs.get? idx3 = some inp3 → inp3.name ∈ g.inputs →
      inp3.name ≠ "" →
      handleConnectionChange hcs st node (some ⟨[g]⟩) idx3 =
        g.widgets.foldl (toggleByName hcs (anyGroupInputConnected node g)) (st, node) := by
    intro idx3 inp3 h3 hm3 hne3
    unfold handleConnectionChange
    rw [h3]
    have hc : g.inputs.contains inp3.name = true := List.elem_iff.mpr hm3
    simp only [hne3, if_false, List.foldl_cons, List.foldl_nil, applyOptGroup, hc, if_true]
  constructor
  · rw [hrun idx inp hidx hin hne]
    exact foldToggle_find_mem hcs _ _ (st, node) t ht (by rw [show findWidget (st, node).2 t = some w from hw]; rfl)
  · intro idx2 inp2 h2 hm2 hne2
    rw [hrun idx2 inp2 h2 hm2 hne2, hrun idx inp hidx hin hne]

/-- C3: `toggleWidget` on an existing widget restores render-kind, size
function and height override from the originals captured on the widget's
first toggle when showing (or when the global hiding switch is off); otherwise
it installs the hidden sentinel kind, the zero-footprint size function and a
forced zero height. -/
theorem toggleWidget_mutation_spec (hcs : List Widget → Int × Int)
    (st : GlobalState) (node : Node) (w : Widget) (s : Bool)
    (hw : findWidget node w.name = some w) :
    ∃ p w2,
      lookupOrig (toggleWidget hcs st node (some w) s).1.origProps w.name = some p ∧
      p = (lookupOrig st.origProps w.name).getD ⟨w.type, w.computeSize⟩ ∧
      findWidget (toggleWidget hcs st node (some w) s).2 w.name = some w2 ∧
      (if s || !st.enableWidgetHiding then
        w2.type = p.origType ∧ w2.computeSize = p.origComputeSize ∧
          w2.computedHeight = none
       else
        w2.type = HIDDEN_TAG ∧ w2.computeSize = SizeFn.zeroFootprint ∧
          w2.computedHeight = some 0 ∧
          ∀ env, SizeFn.eval env w2.computeSize = (0, -4)) := by
  refine ⟨capturedProps st.origProps w,
    toggledWidget st (capturedProps st.origProps w) w s, ?_, rfl, ?_, ?_⟩
  · exact lookupOrig_insertOrig_self st.origProps w
  · rw [findWidget_toggleWidget_self, hw]
    rfl
  · unfold toggledWidget visibleNow
    cases hv : (s || !st.enableWidgetHiding) <;> simp [hv, SizeFn.eval]

/-- C4: after `toggleWidget` on a widget, the node keeps its width; its height
is the max of the freshly recomputed natural height and the pre-call height
when showing (or when hiding is disabled), and exactly the recomputed height
when hiding; in particular a toggle to shown never leaves the node shorter
than before. -/
theorem toggleWidget_size_spec (hcs : List Widget → Int × Int)
    (st : GlobalState) (node : Node) (w : Widget) (s : Bool) :
    (toggleWidget hcs st node (some w) s).2.size.1 = node.size.1 ∧
    (toggleWidget hcs st node (some w) s).2.size.2 =
      (if s || !st.enableWidgetHiding then
        max (hcs (toggleWidget hcs st node (some w) s).2.widgets).2 node.size.2
       else (hcs (toggleWidget hcs st node (some w) s).2.widgets).2) ∧
    (s = true → node.size.2 ≤ (toggleWidget hcs st node (some w) s).2.size.2) := by
  rw [toggleWidget_some]
  refine ⟨rfl, rfl, ?_⟩
  intro hs
  subst hs
  show node.size.2 ≤ (resizeNode hcs st node _ true).size.2
  unfold resizeNode visibleNow
  simp

/-- C5: applying the same visibility decision twice in immediate succession is
a no-op with respect to node size — calling `toggleWidget` twice in a row with
the same `shouldShow` leaves the node with the same size as calling it
once. -/
theorem toggleWidget_idempotent_size (hcs : List Widget → Int × Int)
    (st : GlobalState) (node : Node) (t : String) (s : Bool) :
    (toggleWidget hcs (toggleWidget hcs st node (findWidget node t) s).1
      (toggleWidget hcs st node (findWidget node t) s).2
      (findWidget (toggleWidget hcs st node (findWidget node t) s).2 t) s).2.size =
    (toggleWidget hcs st node (findWidget node t) s).2.size := by
  cases hf : findWidget node t with
  | none => simp [hf, toggleWidget]
  | some w =>
    have hname := findWidget_name hf
    subst hname
    have hfind1 : findWidget (toggleWidget hcs st node (some w) s).2 w.name =
        some (toggledWidget st (capturedProps st.origProps w) w s) := by
      rw [findWidget_toggleWidget_self, hf]
      rfl
    rw [hfind1]
    rw [toggleWidget_some hcs (toggleWidget hcs st node (some w) s).1
      (toggleWidget hcs st node (some w) s).2
      (toggledWidget st (capturedProps st.origProps w) w s) s]
    rw [capturedProps_after_toggle hcs st node w s
      (toggledWidget st (capturedProps st.origProps w) w s) rfl]
    have hW3 : toggledWidget (toggleWidget hcs st node (some w) s).1
        (capturedProps st.origProps w)
        (toggledWidget st (capturedProps st.origProps w) w s) s =
        toggledWidget st (capturedProps st.origProps w) w s := rfl
    rw [hW3]
    have hupd : updateFirstWidget (toggleWidget hcs st node (some w) s).2.widgets
        (toggledWidget st (capturedProps st.origProps w) w s).name
        (toggledWidget st (capturedProps st.origProps w) w s) =
        (toggleWidget hcs st node (some w) s).2.widgets :=
      updateFirstWidget_self _ _ _ hfind1
    rw [hupd]
    rw [toggleWidget_some hcs st node w s]
    simp only [resizeNode, visibleNow]
    by_cases hc : (s || !st.enableWidgetHiding) = true
    · simp [hc, ← max_assoc, max_self]
    · simp [hc]

/-- C6: hiding a widget and then showing it again restores its render-kind and
size-contribution function to the values it had before the hide — the first
toggle captures the originals before overwriting them, so the round trip
loses nothing. -/
theorem toggleWidget_restore_lossless (hcs : List Widget → Int × Int)
    (st : GlobalState) (node : Node) (w : Widget)
    (hw : findWidget node w.name = some w)
    (hfirst : lookupOrig st.origProps w.name = none) :
    ∃ w2, findWidget (toggleWidget hcs (toggleWidget hcs st node (some w) false).1
        (toggleWidget hcs st node (some w) false).2
        (findWidget (toggleWidget hcs st node (some w) false).2 w.name) true).2
        w.name = some w2 ∧
      w2.type = w.type ∧ w2.computeSize = w.computeSize := by
  have hcap : capturedProps st.origProps w = ⟨w.type, w.computeSize⟩ := by
    unfold capturedProps
    rw [hfirst]
    rfl
  have hfind1 : findWidget (toggleWidget hcs st node (some w) false).2 w.name =
      some (toggledWidget st (capturedProps st.origProps w) w false) := by
    rw [findWidget_toggleWidget_self, hw]
    rfl
  rw [hfind1]
  have hfind2 : findWidget (toggleWidget hcs
      (toggleWidget hcs st node (some w) false).1
      (toggleWidget hcs st node (some w) false).2
      (some (toggledWidget st (capturedProps st.origProps w) w false)) true).2
      w.name =
      some (toggledWidget (toggleWidget hcs st node (some w) false).1
        (capturedProps (toggleWidget hcs st node (some w) false).1.origProps
          (toggledWidget st (capturedProps st.origProps w) w false))
        (toggledWidget st (capturedProps st.origProps w) w false) true) := by
    rw [findWidget_toggleWidget_self_name hcs
      (toggleWidget hcs st node (some w) false).1
      (toggleWidget hcs st node (some w) false).2
      (toggledWidget st (capturedProps st.origProps w) w false) true w.name rfl,
      hfind1]
    rfl
  rw [hfind2]
  rw [capturedProps_after_toggle hcs st node w false
    (toggledWidget st (capturedProps st.origProps w) w false) rfl, hcap]
  exact ⟨_, rfl, rfl, rfl⟩

theorem reapplyStep_cases (hcs : List Widget → Int × Int)
    (p : GlobalState × Node) (m : String) :
    reapplyStep hcs p m = p ∨
    ∃ w b, findWidget p.2 m = some w ∧ w.RES4LYF_hidden = some b ∧
      reapplyStep hcs p m = toggleWidget hcs p.1 p.2 (some w) (!b) := by
  cases hf : findWidget p.2 m with
  | none =>
    refine Or.inl ?_
    unfold reapplyStep
    simp only [hf]
  | some w =>
    cases hb : w.RES4LYF_hidden with
    | none =>
      refine Or.inl ?_
      unfold reapplyStep
      simp only [hf, hb]
    | some b =>
      refine Or.inr ⟨w, b, rfl, hb, ?_⟩
      unfold reapplyStep
      simp only [hf, hb]

theorem reapplyStep_find_other (hcs : List Widget → Int × Int)
    (p : GlobalState × Node) (m t : String) (hm : t ≠ m) :
    findWidget (reapplyStep hcs p m).2 t = findWidget p.2 t := by
  rcases reapplyStep_cases hcs p m with h | ⟨w, b, hf, hb, h⟩
  · rw [h]
  · rw [h]
    exact findWidget_toggleWidget_other _ _ _ _ _ _
      (by rw [findWidget_name hf]; exact hm)

theorem reapplyStep_lookup (hcs : List Widget → Int × Int)
    (p : GlobalState × Node) (m n : String) (q : OrigProp)
    (h : lookupOrig p.1.origProps n = some q) :
    lookupOrig (reapplyStep hcs p m).1.origProps n = some q := by
  rcases reapplyStep_cases hcs p m with he | ⟨w, b, hf, hb, he⟩
  · rw [he]
    exact h
  · rw [he]
    exact lookupOrig_toggleWidget h

theorem reapplyStep_enable (hcs : List Widget → Int × Int)
    (p : GlobalState × Node) (m : String) :
    (reapplyStep hcs p m).1.enableWidgetHiding = p.1.enableWidgetHiding := by
  rcases reapplyStep_cases hcs p m with he | ⟨w, b, hf, hb, he⟩
  · rw [he]
  · rw [he]
    exact toggleWidget_fst_enable _ _ _ _ _

theorem reapplyFold_find_not_mem (hcs : List Widget → Int × Int)
    (L : List String) (p : GlobalState × Node) (t : String) (h : t ∉ L) :
    findWidget (L.foldl (reapplyStep hcs) p).2 t = findWidget p.2 t := by
  induction L generalizing p with
  | nil => rfl
  | cons m L ih =>
    rw [List.foldl_cons, ih _ (fun hmem => h (List.mem_cons_of_mem m hmem))]
    exact reapplyStep_find_other hcs p m t
      (fun he => h (he ▸ List.mem_cons_self m L))

theorem reapplyFold_spec (hcs : List Widget → Int × Int) (L : List String)
    (p : GlobalState × Node) (t : String) (w : Widget) (b : Bool) (q : OrigProp)
    (hL : L.Nodup) (ht : t ∈ L)
    (hw : findWidget p.2 t = some w)
    (hb : w.RES4LYF_hidden = some b)
    (hq : lookupOrig p.1.origProps t = some q)
    (hen : p.1.enableWidgetHiding = true) :
    ∃ w2, findWidget (L.foldl (reapplyStep hcs) p).2 t = some w2 ∧
      w2.RES4LYF_hidden = some b ∧
      w2.type = (if b then HIDDEN_TAG else q.origType) := by
  induction L generalizing p with
  | nil => cases ht
  | cons m L ih =>
    rw [List.foldl_cons]
    by_cases hm : t = m
    · subst hm
      have htL : t ∉ L := (List.nodup_cons.mp hL).1
      rw [reapplyFold_find_not_mem hcs L _ t htL]
      have hname := findWidget_name hw
      have hstep : reapplyStep hcs p t = toggleWidget hcs p.1 p.2 (some w) (!b) := by
        unfold reapplyStep
        simp only [hw, hb]
      rw [hstep, findWidget_toggleWidget_self_name hcs p.1 p.2 w (!b) t hname, hw]
      have hcap : capturedProps p.1.origProps w = q := by
        unfold capturedProps
        rw [hname, hq]
        rfl
      refine ⟨_, rfl, ?_, ?_⟩
      · show some (!(!b)) = some b
        simp
      · show (if visibleNow p.1 (!b) then
            (capturedProps p.1.origProps w).origType else HIDDEN_TAG) = _
        rw [hcap]
        unfold visibleNow
        rw [hen]
        cases b <;> simp
    · have htL : t ∈ L := (List.mem_cons.mp ht).resolve_left hm
      exact ih (reapplyStep hcs p m) (List.nodup_cons.mp hL).2 htL
        (by rw [reapplyStep_find_other hcs p m t hm]; exact hw)
        (reapplyStep_lookup hcs p m t q hq)
        (by rw [reapplyStep_enable]; exact hen)

/-- C7: for a globally-toggleable widget with a per-instance override entry in
the override store, the settings change handler for the global default leaves
the node untouched (the toggle engine is not invoked, so effective visibility
is unchanged); for an instance with no override entry the new default is
applied through `toggleWidget`, recording the new hidden state. -/
theorem defaultState_override_precedence (hcs : List Widget → Int × Int)
    (ts : List (String × Bool)) (widgetName : String) (value : Bool) :
    (∀ st node, hasToggleState ts (stateKey node widgetName) = true →
      applyDefaultWidgetState hcs ts widgetName value st node = (st, node)) ∧
    (∀ st nodes i n, nodes.get? i = some n →
      hasToggleState ts (stateKey n widgetName) = true →
      (defaultStateOnChange hcs ts widgetName value st nodes).2.get? i = some n) ∧
    (∀ st node w, (nodeConfigs node.comfyClass).isSome = true →
      findWidget node widgetName = some w →
      hasToggleState ts (stateKey node widgetName) = false →
      applyDefaultWidgetState hcs ts widgetName value st node =
        toggleWidget hcs st node (some w) (!value) ∧
      ∃ w2, findWidget (applyDefaultWidgetState hcs ts widgetName value st node).2
          widgetName = some w2 ∧
        w2.RES4LYF_hidden = some value) := by
  have part1 : ∀ st node, hasToggleState ts (stateKey node widgetName) = true →
      applyDefaultWidgetState hcs ts widgetName value st node = (st, node) := by
    intro st node h
    unfold applyDefaultWidgetState
    cases hm : (nodeConfigs node.comfyClass).isSome
    · simp
    · cases hf : findWidget node widgetName
      · simp
      · simp [h]
  refine ⟨part1, ?_, ?_⟩
  · intro st nodes
    induction nodes generalizing st with
    | nil =>
      intro i n h
      simp at h
    | cons m ns ih =>
      intro i n hget hhas
      cases i with
      | zero =>
        have hmn : m = n := by simpa using hget
        subst hmn
        show (defaultStateOnChange hcs ts widgetName value st (m :: ns)).2.get? 0 = _
        unfold defaultStateOnChange
        rw [part1 st m hhas]
        rfl
      | succ j =>
        have hget2 : ns.get? j = some n := by simpa using hget
        show (defaultStateOnChange hcs ts widgetName value st (m :: ns)).2.get? (j + 1) = _
        unfold defaultStateOnChange
        exact ih _ j n hget2 hhas
  · intro st node w hm hf hh
    have he : applyDefaultWidgetState hcs ts widgetName value st node =
        toggleWidget hcs st node (some w) (!value) := by
      unfold applyDefaultWidgetState
      rw [hm, hf, hh]
      simp
    refine ⟨he, ?_⟩
    rw [he, findWidget_toggleWidget_self_name hcs st node w (!value) widgetName
      (findWidget_name hf), hf]
    refine ⟨_, rfl, ?_⟩
    show some (!(!value)) = some value
    simp

/-- C9: `toggleWidget` records its decision in the widget's
`_RES4LYF_hidden` flag regardless of the global hiding switch, and the
hiding switch's change handler re-applies `toggleWidget(node, w, !flag)` to
every flagged widget on managed nodes, so the most recent recorded decision
takes visible effect as soon as hiding is enabled. -/
theorem hiddenFlag_reapplied_on_enable :
    (∀ (hcs : List Widget → Int × Int) (st : GlobalState) (node : Node)
      (w : Widget) (s : Bool), findWidget node w.name = some w →
      ∃ w2, findWidget (toggleWidget hcs st node (some w) s).2 w.name = some w2 ∧
        w2.RES4LYF_hidden = some (!s)) ∧
    (∀ (hcs : List Widget → Int × Int) (st : GlobalState) (node : Node)
      (t : String) (w : Widget) (b : Bool) (q : OrigProp),
      (node.widgets.map Widget.name).Nodup →
      (nodeConfigs node.comfyClass).isSome = true →
      findWidget node t = some w →
      w.RES4LYF_hidden = some b →
      lookupOrig st.origProps t = some q →
      ∃ w2, findWidget (enableHidingOnChange hcs true st node).2 t = some w2 ∧
        w2.RES4LYF_hidden = some b ∧
        w2.type = (if b then HIDDEN_TAG else q.origType)) := by
  constructor
  · intro hcs st node w s hw
    rw [findWidget_toggleWidget_self, hw]
    exact ⟨_, rfl, rfl⟩
  · intro hcs st node t w b q hnd hm hw hb hq
    unfold enableHidingOnChange
    rw [hm]
    show ∃ w2, findWidget (reapplyHiddenFlags hcs ⟨true, st.origProps⟩ node).2 t =
      some w2 ∧ _
    unfold reapplyHiddenFlags
    have htm : t ∈ node.widgets.map Widget.name := by
      have hmem := List.mem_of_find?_eq_some hw
      exact List.mem_map.mpr ⟨w, hmem, findWidget_name hw⟩
    exact reapplyFold_spec hcs _ (⟨true, st.origProps⟩, node) t w b q hnd htm hw hb hq rfl

/-- C10: the `origProps` store is keyed by widget name process-wide and each
entry is written only when absent — an entry, once present, survives any
sequence of toggles unchanged; the first toggle of a name captures that
widget's current render-kind and size function; and every later restore of a
same-named widget on any node uses the stored values. -/
theorem origProps_capture_once :
    (∀ (hcs : List Widget → Int × Int) (st : GlobalState) (n : String)
      (p : OrigProp) (calls : List (Node × Option Widget × Bool)),
      lookupOrig st.origProps n = some p →
      lookupOrig (runToggleCalls hcs calls st).origProps n = some p) ∧
    (∀ (hcs : List Widget → Int × Int) (st : GlobalState) (node : Node)
      (w : Widget) (s : Bool),
      lookupOrig st.origProps w.name = none →
      lookupOrig (toggleWidget hcs st node (some w) s).1.origProps w.name =
        some ⟨w.type, w.computeSize⟩) ∧
    (∀ (hcs : List Widget → Int × Int) (st : GlobalState) (node2 : Node)
      (w2 : Widget) (p : OrigProp) (s : Bool),
      lookupOrig st.origProps w2.name = some p →
      findWidget node2 w2.name = some w2 →
      ∃ w3, findWidget (toggleWidget hcs st node2 (some w2) s).2 w2.name = some w3 ∧
        w3.type = (if s || !st.enableWidgetHiding then p.origType else HIDDEN_TAG) ∧
        w3.computeSize = (if s || !st.enableWidgetHiding then p.origComputeSize
          else SizeFn.zeroFootprint)) := by
  refine ⟨?_, ?_, ?_⟩
  · intro hcs st n p calls h
    induction calls generalizing st with
    | nil => exact h
    | cons c cs ih =>
      show lookupOrig (runToggleCalls hcs cs (toggleWidget hcs st c.1 c.2.1 c.2.2).1).origProps n = some p
      exact ih _ (lookupOrig_toggleWidget h)
  · intro hcs st node w s h
    show lookupOrig (insertOrig st.origProps w) w.name = _
    rw [lookupOrig_insertOrig_self]
    unfold capturedProps
    rw [h]
    rfl
  · intro hcs st node2 w2 p s hp hf
    rw [findWidget_toggleWidget_self, hf]
    have hcap : capturedProps st.origProps w2 = p := by
      unfold capturedProps
      rw [hp]
      rfl
    rw [hcap]
    exact ⟨_, rfl, rfl, rfl⟩

/-- C8 counterexample: wrapping `onConnectionsChange` twice — which is what a
second `setupDynamicWidgets` run on the same node does — makes one connection
event run the added connection logic twice, and the plain assignment of
`onAfterGraphConfigured` discards a pre-existing handler instead of calling
through, so the claim that every hook wrapping both calls through and is
idempotent is false. -/
theorem hook_wrapping_claim_counterexample :
    ((wrapOnConnectionsChange (wrapOnConnectionsChange ConnHook.unset)).run.count
        HookAction.connectionUpdate ≠
      (wrapOnConnectionsChange ConnHook.unset).run.count HookAction.connectionUpdate) ∧
    (setOnAfterGraphConfigured (AfterGraphHook.external 7)).run.count
      (HookAction.externalAction 7) = 0 := by
  decide

/-- C8 amended: the connection-change and menu wrappings preserve and call
through to the previously installed handler, and the menu wrapping is guarded
and idempotent; but the connection-change wrapping is unguarded, so
performing the setup twice makes every later event run the added connection
logic twice, and installing the after-graph-configured handler overwrites any
pre-existing handler without calling through. -/
theorem hook_wrapping_behavior :
    (∀ h : ConnHook, (wrapOnConnectionsChange h).run =
      h.run ++ [HookAction.connectionUpdate, HookAction.nodeChange]) ∧
    (∀ s : MenuHookState, s.menuWrapped = false →
      (wrapGetExtraMenuOptions s).hook.run =
        s.hook.run ++ [HookAction.pushRefreshOption, HookAction.pushToggleOptions]) ∧
    (∀ s, wrapGetExtraMenuOptions (wrapGetExtraMenuOptions s) =
      wrapGetExtraMenuOptions s) ∧
    (∀ h : ConnHook,
      (wrapOnConnectionsChange (wrapOnConnectionsChange h)).run.count
          HookAction.connectionUpdate =
        h.run.count HookAction.connectionUpdate + 2) ∧
    (∀ h, setOnAfterGraphConfigured h = AfterGraphHook.res4lyfHandler) := by
  refine ⟨fun h => rfl, ?_, ?_, ?_, fun h => rfl⟩
  · intro s hs
    unfold wrapGetExtraMenuOptions
    rw [hs]
    rfl
  · intro s
    cases hb : s.menuWrapped <;> simp [wrapGetExtraMenuOptions, hb]
  · intro h
    show ((h.run ++ [HookAction.connectionUpdate, HookAction.nodeChange]) ++
      [HookAction.connectionUpdate, HookAction.nodeChange]).count
        HookAction.connectionUpdate = _
    simp [List.count_append, List.count_cons]

/-! ### Witnesses -/

/-- Witness for the C1 theorem: on the sample node `noise_type = "fractal"`
resolves `alpha` to shown. -/
theorem createGenericHandler_value_rule_witness :
    ∃ w2, findWidget (runGenericHandler sampleHcs sampleState sampleNode
        (some ⟨[noiseGroup]⟩)).2 "alpha" = some w2 ∧
      w2.RES4LYF_hidden = some false ∧
      w2.computedHeight = none :=
  (createGenericHandler_value_rule sampleHcs sampleState sampleNode noiseGroup
    "alpha" alphaWidget (by decide) (by decide)).1

/-- Witness for the C2 theorem: with `latent_guide` disconnected and
`latent_guide_inv` connected, `guide_mode` resolves to shown. -/
theorem handleConnectionChange_connection_rule_witness :
    ∃ w2, findWidget (handleConnectionChange sampleHcs sampleState sampleNode
        (some ⟨[guideOptGroup]⟩) 1).2 "guide_mode" = some w2 ∧
      w2.RES4LYF_hidden = some false ∧
      w2.computedHeight = none :=
  (handleConnectionChange_connection_rule sampleHcs sampleState sampleNode
    guideOptGroup 1 ⟨"latent_guide_inv", some 3⟩ "guide_mode" guideModeWidget
    (by decide) (by decide) (by decide) (by decide) (by decide)).1

/-- Witness for the C3 theorem at a concrete showing toggle. -/
theorem toggleWidget_mutation_spec_witness :
    ∃ p w2,
      lookupOrig (toggleWidget sampleHcs sampleState sampleNode (some alphaWidget)
        true).1.origProps "alpha" = some p ∧
      p = (lookupOrig sampleState.origProps "alpha").getD ⟨"number", SizeFn.host 1⟩ ∧
      findWidget (toggleWidget sampleHcs sampleState sampleNode (some alphaWidget)
        true).2 "alpha" = some w2 ∧
      (w2.type = p.origType ∧ w2.computeSize = p.origComputeSize ∧
        w2.computedHeight = none) :=
  toggleWidget_mutation_spec sampleHcs sampleState sampleNode alphaWidget true
    (by decide)

/-- Witness for the C4 theorem: a toggle to shown does not shrink the sample
node. -/
theorem toggleWidget_size_spec_witness :
    sampleNode.size.2 ≤ (toggleWidget sampleHcs sampleState sampleNode
      (some alphaWidget) true).2.size.2 :=
  (toggleWidget_size_spec sampleHcs sampleState sampleNode alphaWidget true).2.2 rfl

/-- Witness for the C6 theorem: hide-then-show on the sample node restores
the `alpha` widget's render-kind and size function. -/
theorem toggleWidget_restore_lossless_witness :
    ∃ w2, findWidget (toggleWidget sampleHcs
        (toggleWidget sampleHcs sampleState sampleNode (some alphaWidget) false).1
        (toggleWidget sampleHcs sampleState sampleNode (some alphaWidget) false).2
        (findWidget (toggleWidget sampleHcs sampleState sampleNode
          (some alphaWidget) false).2 "alpha") true).2 "alpha" = some w2 ∧
      w2.type = "number" ∧ w2.computeSize = SizeFn.host 1 :=
  toggleWidget_restore_lossless sampleHcs sampleState sampleNode alphaWidget
    (by decide) (by decide)

/-- Witness for the C7 theorem: an override entry for the sample node's
`extra_options` widget blocks the default change, and with no override the new
default is applied. -/
theorem defaultState_override_precedence_witness :
    (applyDefaultWidgetState sampleHcs [("5_extra_options", true)] "extra_options"
      false sampleState sampleNode = (sampleState, sampleNode)) ∧
    (∃ w2, findWidget (applyDefaultWidgetState sampleHcs [] "extra_options" true
        sampleState sampleNode).2 "extra_options" = some w2 ∧
      w2.RES4LYF_hidden = some true) :=
  ⟨(defaultState_override_precedence sampleHcs [("5_extra_options", true)]
      "extra_options" false).1 sampleState sampleNode (by decide),
   ((defaultState_override_precedence sampleHcs [] "extra_options" true).2.2
      sampleState sampleNode extraOptionsWidget (by decide) (by decide)
      (by decide)).2⟩

/-- Witness for the C8 amended theorem: the menu wrapping on an unwrapped node
calls through to a pre-existing handler. -/
theorem hook_wrapping_behavior_witness :
    (wrapGetExtraMenuOptions ⟨false, MenuHook.external 3⟩).hook.run =
      (MenuHook.external 3).run ++
        [HookAction.pushRefreshOption, HookAction.pushToggleOptions] :=
  hook_wrapping_behavior.2.1 ⟨false, MenuHook.external 3⟩ rfl

/-- Witness for the C9 theorem: a toggle with hiding off still records the
flag, and enabling hiding re-applies the recorded flag of
`latent_guide_weight`. -/
theorem hiddenFlag_reapplied_on_enable_witness :
    (∃ w2, findWidget (toggleWidget sampleHcs sampleState sampleNode
        (some alphaWidget) true).2 "alpha" = some w2 ∧
      w2.RES4LYF_hidden = some false) ∧
    (∃ w2, findWidget (enableHidingOnChange sampleHcs true sampleStateWithProps
        sampleNode).2 "latent_guide_weight" = some w2 ∧
      w2.RES4LYF_hidden = some false ∧
      w2.type = "number") :=
  ⟨hiddenFlag_reapplied_on_enable.1 sampleHcs sampleState sampleNode alphaWidget
      true (by decide),
   hiddenFlag_reapplied_on_enable.2 sampleHcs sampleStateWithProps sampleNode
      "latent_guide_weight" guideWeightWidget false ⟨"number", SizeFn.host 4⟩
      (by decide) (by decide) (by decide) (by decide) (by decide)⟩

/-- Witness for the C10 theorem: an existing `origProps` entry survives a
toggle call, a first toggle captures the current values, and a restore uses
the stored entry. -/
theorem origProps_capture_once_witness :
    (lookupOrig (runToggleCalls sampleHcs [(sampleNode, some alphaWidget, true)]
        sampleStateWithProps).origProps "alpha" = some ⟨"number", SizeFn.host 1⟩) ∧
    (lookupOrig (toggleWidget sampleHcs sampleState sampleNode (some alphaWidget)
        false).1.origProps "alpha" = some ⟨"number", SizeFn.host 1⟩) ∧
    (∃ w3, findWidget (toggleWidget sampleHcs sampleStateWithProps sampleNode
        (some alphaWidget) true).2 "alpha" = some w3 ∧
      w3.type = "number" ∧ w3.computeSize = SizeFn.host 1) :=
  ⟨origProps_capture_once.1 sampleHcs sampleStateWithProps "alpha"
      ⟨"number", SizeFn.host 1⟩ [(sampleNode, some alphaWidget, true)] (by decide),
   origProps_capture_once.2.1 sampleHcs sampleState sampleNode alphaWidget false
      (by decide),
   origProps_capture_once.2.2 sampleHcs sampleStateWithProps sampleNode alphaWidget
      ⟨"number", SizeFn.host 1⟩ true (by decide) (by decide)⟩

end RES4LYF
